import Mathlib

/-!
Shallow embedding of `tle/email_forward.py`: the forwarded-block extractor,
the forwarded-header reconstructor, the validator and the
unprocessed-message iterator, together with proofs of the specification
claims about them.

Python strings are modelled as `List Char`; Python `None` as `Option`;
Python exceptions that can escape the modelled functions as an explicit
error type threaded through `Except`.
-/

namespace EmailForward

/-- Model of a Python string: a list of characters. -/
abbrev Str := List Char

/-- Characters removed by Python `str.strip()` with no arguments
(ASCII whitespace). -/
def isPyWs (c : Char) : Bool :=
  c = ' ' || c = '\t' || c = '\n' || c = '\r' || c = '\x0b' || c = '\x0c'

/-- Model of Python `str.lower` on one character (ASCII range; all inputs
in scope are ASCII). -/
def lowerChar (c : Char) : Char :=
  if 65 ≤ c.toNat ∧ c.toNat ≤ 90 then Char.ofNat (c.toNat + 32) else c

/-- Model of Python `str.lower`. -/
def pyLower (s : Str) : Str := s.map lowerChar

/-- Python `not datum.strip()`: true iff every character is whitespace. -/
def pyIsBlank (s : Str) : Bool := s.all isPyWs

/-- Python `str.lstrip(' \t')`: drop leading spaces and tabs. -/
def pyLstrip (s : Str) : Str := s.dropWhile (fun c => c = ' ' || c = '\t')

/-- Python `str.strip()`: drop leading and trailing whitespace. -/
def pyTrim (s : Str) : Str :=
  ((s.dropWhile isPyWs).reverse.dropWhile isPyWs).reverse

/-- Helper for `splitCRLF`: push a character onto the first piece. -/
def consHead (c : Char) : List Str → List Str
  | [] => [[c]]
  | h :: t => (c :: h) :: t

/-- Python `data.split('\r\n')`: split on the two-character separator,
left to right, keeping empty pieces. -/
def splitCRLF : Str → List Str
  | [] => [[]]
  | [c] => [[c]]
  | c :: c2 :: rest =>
    if c = '\r' ∧ c2 = '\n' then [] :: splitCRLF rest
    else consHead c (splitCRLF (c2 :: rest))

/-- Python `'\r\n'.join(lines)`. -/
def joinCRLF : List Str → Str
  | [] => []
  | [l] => l
  | l :: l2 :: ls => l ++ '\r' :: '\n' :: joinCRLF (l2 :: ls)

/-- Python `line.split()`: split on whitespace runs, discarding empties.
Helper carrying the piece under construction (reversed). -/
def splitWsAux : Str → Str → List Str
  | [], acc => [acc.reverse]
  | c :: rest, acc =>
    if isPyWs c then acc.reverse :: splitWsAux rest []
    else splitWsAux rest (c :: acc)

/-- Python `line.split()` with no arguments. -/
def pySplitWs (s : Str) : List Str := (splitWsAux s []).filter (· ≠ [])

/-- Python exceptions that can escape the modelled functions:
`indexError` from `text[-1]` on an empty list, `attributeError` from
`None.lower()`. -/
inductive PyErr where
  | indexError
  | attributeError
deriving DecidableEq, Repr

/-- Result of running modelled Python code that may raise. -/
abbrev Py (α : Type) := Except PyErr α

/-! ## The forwarded-block extractor `_forwarded_data` -/

/-- The mutable state of `_forwarded_data`: the remaining expected header
names (`headers`) and the collected lines (`text`). Both are initialised
once, before the outer loop, and persist across outer-loop iterations. -/
structure ScanState where
  headers : List Str
  text : List Str
deriving DecidableEq, Repr

/-- Python `text[-1] = text[-1] + ' ' + datum`: append a continuation to
the last collected line; on an empty list Python raises IndexError,
modelled as `none`. -/
def glueLast : List Str → Str → Option (List Str)
  | [], _ => none
  | [l], d => some [l ++ ' ' :: d]
  | l :: ls, d => (glueLast ls d).map (l :: ·)

/-- The `for header in headers` loop of `_forwarded_data`, acting on one
datum: each non-matching header name glues the datum onto the last
collected line (IndexError when none exists); the first header name that
is a prefix of the lowered datum appends the datum to `text` and is
removed from `headers`, ending the loop. `pre` holds the header names
already passed over. -/
def headerScan (lower datum : Str) : List Str → List Str → List Str →
    Py ScanState
  | pre, [], text => .ok ⟨pre, text⟩
  | pre, h :: hs, text =>
    if h.isPrefixOf lower then .ok ⟨pre ++ hs, text ++ [datum]⟩
    else
      match glueLast text datum with
      | none => .error .indexError
      | some text2 => headerScan lower datum (pre ++ [h]) hs text2

/-- One iteration of the `for datum in data[i+1:]` loop of
`_forwarded_data`: `.inl text` models the early `return text` taken when
no expected header names remain; `.inr st` is the state for the next
iteration. Blank lines are skipped; a leading `'>'` causes the first two
characters to be dropped before inspection. -/
def processDatum (st : ScanState) (datum : Str) : Py (Sum (List Str) ScanState) :=
  if st.headers = [] then .ok (.inl st.text)
  else if pyIsBlank datum then .ok (.inr st)
  else
    let datum2 := if datum.head? = some '>' then datum.drop 2 else datum
    (headerScan (pyLower datum2) datum2 [] st.headers st.text).map .inr

/-- The `for datum in data[i+1:]` loop of `_forwarded_data` over a list of
lines: `.inl text` is the early `return text`, `.inr st` means the loop
ran off the end of the lines with state `st` (control returns to the
outer loop). -/
def dataScan (st : ScanState) : List Str → Py (Sum (List Str) ScanState)
  | [] => .ok (.inr st)
  | d :: rest =>
    match processDatum st d with
    | .error e => .error e
    | .ok (.inl t) => .ok (.inl t)
    | .ok (.inr st2) => dataScan st2 rest

/-- The outer `for (i, line) in enumerate(data)` loop of
`_forwarded_data`: at every line equal to the marker, the inner loop runs
over the remaining lines with the current (persistent) state; an inner
`return text` yields `some text`; falling off the end of the outer loop
yields `none`. -/
def forwardedDataAux (marker : Str) (st : ScanState) :
    List Str → Py (Option (List Str))
  | [] => .ok none
  | line :: rest =>
    if line = marker then
      match dataScan st rest with
      | .error e => .error e
      | .ok (.inl t) => .ok (some t)
      | .ok (.inr st2) => forwardedDataAux marker st2 rest
    else forwardedDataAux marker st rest

/-- The initial `headers = ['from', 'date', 'subject', 'to']` list. -/
def initHeaders : List Str := ["from".data, "date".data, "subject".data, "to".data]

/-- Model of `_forwarded_data(data, begin)`. -/
def forwarded_data (data : List Str) (marker : Str) : Py (Option (List Str)) :=
  forwardedDataAux marker ⟨initHeaders, []⟩ data

/-- The Gmail forwarded-message marker line. -/
def gmailMarker : Str := "---------- Forwarded message ----------".data

/-- The iPhone forwarded-message marker line. -/
def iphoneMarker : Str := "Begin forwarded message:".data

/-- Model of `_forwarded_text(msg)` on the decoded body text: split on
CRLF, try the Gmail marker, fall back to the iPhone marker. (The
multipart branch of the source only selects which payload string is
decoded; the model takes that decoded text directly.) -/
def forwarded_text (body : Str) : Py (Option (List Str)) :=
  let data := splitCRLF body
  match forwarded_data data gmailMarker with
  | .error e => .error e
  | .ok (some t) => .ok (some t)
  | .ok none => forwarded_data data iphoneMarker

/-! ## The header reconstructor and header access -/

/-- Split a line at its first colon: `some (name, rest)`, or `none` when
the line has no colon. -/
def splitColon : Str → Option (Str × Str)
  | [] => none
  | c :: rest =>
    if c = ':' then some ([], rest)
    else (splitColon rest).map (fun p => (c :: p.1, p.2))

/-- Model of `email.parser.Parser.parsestr(text, headersonly=True)` under
the default policy, on text split into lines: a line starting with a space
or tab continues the previous header value (appended after a CRLF, as
observed in CPython); a line whose first colon is at position zero is
recorded as a defect and skipped; a line with no colon ends header
parsing (the remainder would become payload); any other line yields the
header name before its first colon and, as value, the rest of the line
stripped of leading spaces and tabs. `acc` holds parsed headers in
reverse. -/
def parseHeadersAux (acc : List (Str × Str)) : List Str → List (Str × Str)
  | [] => acc.reverse
  | line :: rest =>
    if line.head? = some ' ' || line.head? = some '\t' then
      match acc with
      | [] => parseHeadersAux [] rest
      | (n, v) :: acc2 => parseHeadersAux ((n, v ++ '\r' :: '\n' :: line) :: acc2) rest
    else
      match splitColon line with
      | none => acc.reverse
      | some ([], _) => parseHeadersAux acc rest
      | some (n, v) => parseHeadersAux ((n, pyLstrip v) :: acc) rest

/-- Model of parsing a headers-only text block. -/
def parse_headers (text : Str) : List (Str × Str) :=
  parseHeadersAux [] (splitCRLF text)

/-- Model of `Message.get(name)`: case-insensitive lookup returning the
first matching header's value. -/
def hget (headers : List (Str × Str)) (name : Str) : Option Str :=
  (headers.find? (fun kv => pyLower kv.1 == pyLower name)).map Prod.snd

/-- Model of `_forwarded_headers(box, text)`: join the collected lines
with CRLF and parse them as a headers-only block. -/
def forwarded_headers (text : List Str) : List (Str × Str) :=
  parse_headers (joinCRLF text)

/-! ## Address extraction -/

/-- Model of `email.utils.parseaddr` on the shapes of header value
exercised here (`None`, the empty string, `Display Name <addr>` forms,
and bare addr-specs); RFC 2822 comments and quoted strings are out of
scope. A value containing `'<'` yields the stripped part before it as
display name and the part between `'<'` and `'>'` as address; otherwise a
stripped value containing `'@'` or `'.'` is itself the address; otherwise
the first whitespace-delimited word alone is returned as the address
(CPython's phrase fallback), which is empty exactly for whitespace-only
input. -/
def parseaddr : Option Str → Str × Str
  | none => ([], [])
  | some s =>
    match (s.dropWhile (· ≠ '<')) with
    | _ :: rest => (pyTrim (s.takeWhile (· ≠ '<')), rest.takeWhile (· ≠ '>'))
    | [] =>
      let t := pyTrim s
      if t.contains '@' || t.contains '.' then ([], t)
      else ([], (pySplitWs t).headD [])

/-- Model of `_email_address(line)`: parse the line; when no address part
is found, the source logs the offending input and returns `None`. -/
def email_address (line : Option Str) : Option (Str × Str) :=
  let p := parseaddr line
  if p.2 = [] then none else some p

/-! ## The validator -/

/-- The validated output record. -/
structure UserRecord where
  email : Str
  first_name : Str
  last_name : Str
deriving DecidableEq, Repr

/-- Model of `_forwarded_from(headers)`: extract the sender address from
the reconstructed `From` header; `none` when no address part is found.
The name fields are fixed placeholders. -/
def forwarded_from (headers : List (Str × Str)) : Option UserRecord :=
  match email_address (hget headers "From".data) with
  | none => none
  | some (_, e) => some ⟨e, "Friendly".data, "Human".data⟩

/-- Model of `_headers_to(headers)`: the parsed address part of the
reconstructed `To` header when one is found, otherwise the raw `To`
value itself (which is `None` when the header is absent). -/
def headers_to (headers : List (Str × Str)) : Option Str :=
  let rawTo := hget headers "To".data
  match email_address rawTo with
  | none => rawTo
  | some (_, e) => some e

/-- The outer parsed message: a header mapping and the decoded body. -/
structure PyMessage where
  headers : List (Str × Str)
  body : Str
deriving DecidableEq, Repr

/-- Case-insensitive header lookup on a message. -/
def PyMessage.get (m : PyMessage) (name : Str) : Option Str := hget m.headers name

/-- The outer-subject test of `_forwarding_user`: with a configured
subject, the outer `Subject` must equal `'Fwd: ' + subject` exactly
(an absent header compares unequal); with none configured, no test. -/
def outerSubjectBad (msg : PyMessage) : Option Str → Bool
  | none => false
  | some subj => msg.get "Subject".data != some ("Fwd: ".data ++ subj)

/-- The forwarded-subject test of `_forwarding_user`: with a configured
subject, the reconstructed `Subject` must equal it exactly; with none
configured, no test. -/
def innerSubjectBad (headers : List (Str × Str)) : Option Str → Bool
  | none => false
  | some subj => hget headers "Subject".data != some subj

/-- Model of `_forwarding_user(box, msg, to_addrs, fwd_addr, subject)`.
Validation failures return `.ok none` (the source logs and returns
`None`); a validated message returns `.ok (forwarded_from headers)`.
Exceptions the source would raise escape as `.error`: an IndexError from
the extractor, or an AttributeError from `headers_to.lower()` when
`_headers_to` returned `None`. -/
def forwarding_user (msg : PyMessage) (to_addrs : List Str) (fwd_addr : Str)
    (subject : Option Str) : Py (Option UserRecord) :=
  let lowAddrs := to_addrs.map pyLower
  match msg.get "Delivered-To".data with
  | none => .ok none
  | some msg_to =>
    if pyLower msg_to ≠ pyLower fwd_addr then .ok none
    else if outerSubjectBad msg subject then .ok none
    else
      match forwarded_text msg.body with
      | .error e => .error e
      | .ok none => .ok none
      | .ok (some text) =>
        let headers := forwarded_headers text
        match headers_to headers with
        | none => .error .attributeError
        | some hto =>
          if lowAddrs.contains (pyLower hto) = false then .ok none
          else if innerSubjectBad headers subject then .ok none
          else .ok (forwarded_from headers)

/-! ## The unprocessed-message iterator -/

/-- Model of the local `_unseen(line)` helper of `_unprocessed_emails`:
it takes the FIRST element of the already-split search result and splits
that single id string again on whitespace. -/
def unseenIds (line : List Str) : List Str := pySplitWs (line.headD [])

/-- Model of `_unprocessed_emails(box)`: `searches` lists the successive
results of `box.search(None, 'UNSEEN')` (each already split into ids by
the `IMAP4_SSL.search` wrapper), and `fetch` models `box.fetch`. Each
round, the loop yields a fetched message for each id produced by
`_unseen` from the current batch, then re-queries; it stops when a search
returns no ids. `searches` must cover every search call made. -/
def unprocessed_emails (fetch : Str → PyMessage) :
    List (List Str) → List PyMessage
  | [] => []
  | batch :: rest =>
    if batch = [] then []
    else (unseenIds batch).map fetch ++ unprocessed_emails fetch rest

/-! ## Concrete inputs used by the claim proofs -/

/-- The configured forwarding address of the scenarios. -/
def fwdAddr : Str := "inbox@svc.com".data

/-- Body of the end-to-end scenario: the Gmail marker followed by the four
forwarded header lines in the source's expected order, with a trailing
CRLF so that one (empty) line follows the `To` line. -/
def bodyC3 : Str :=
  ("irrelevant text\r\n---------- Forwarded message ----------\r\n" ++
   "From: Jane Doe <jane@example.com>\r\nDate: Mon, 1 Jan 2024 00:00:00\r\n" ++
   "Subject: Join Us\r\nTo: signup@svc.com\r\n").data

/-- Outer message of the end-to-end scenario. -/
def msgC3 : PyMessage :=
  ⟨[("Delivered-To".data, "inbox@svc.com".data),
    ("Subject".data, "Fwd: Join Us".data)], bodyC3⟩

/-- Body whose forwarded block has an unresolvable `From` value and a line
matching the `to` prefix whose header name is not `To`: the reconstructed
headers then lack a `To` header. -/
def bodyC1 : Str :=
  ("---------- Forwarded message ----------\r\n" ++
   "From:\r\nDate: D\r\nSubject: s\r\ntonight: x\r\n").data

/-- Outer message around `bodyC1`, passing the Delivered-To check. -/
def msgC1 : PyMessage := ⟨[("Delivered-To".data, "inbox@svc.com".data)], bodyC1⟩

/-- Body whose forwarded block has an unresolvable `From` value but a
well-formed `To` header. -/
def bodyC1w : Str :=
  ("---------- Forwarded message ----------\r\n" ++
   "From:\r\nDate: D\r\nSubject: s\r\nTo: x@y.com\r\n").data

/-- Outer message around `bodyC1w`. -/
def msgC1w : PyMessage := ⟨[("Delivered-To".data, "inbox@svc.com".data)], bodyC1w⟩

/-- Body whose forwarded `To` header is present but empty, so that no
address part is resolvable from it. -/
def bodyC5 : Str :=
  ("---------- Forwarded message ----------\r\n" ++
   "From: Jane Doe <jane@example.com>\r\nDate: D\r\nSubject: s\r\nTo:\r\n").data

/-- Outer message around `bodyC5`. -/
def msgC5 : PyMessage := ⟨[("Delivered-To".data, "inbox@svc.com".data)], bodyC5⟩

/-- Message whose forwarded `To` address parses but is not among the
configured destination addresses. -/
def msgC5w : PyMessage :=
  ⟨[("Delivered-To".data, "inbox@svc.com".data)],
   ("---------- Forwarded message ----------\r\n" ++
    "From: Jane Doe <jane@example.com>\r\nDate: D\r\nSubject: s\r\n" ++
    "To: other@nowhere.com\r\n").data⟩

/-- Body with the four valid forwarded header lines in the order
From, Subject, Date, To (a permutation of the source's expected order). -/
def bodyC2 : Str :=
  ("---------- Forwarded message ----------\r\n" ++
   "From: Jane Doe <jane@example.com>\r\nSubject: Join Us\r\n" ++
   "Date: Mon, 1 Jan 2024 00:00:00\r\nTo: signup@svc.com\r\n").data

/-- The lines the extractor collects from `bodyC2`: the `Subject` line was
glued onto the `From` line before being recognised. -/
def textC2 : List Str :=
  ["From: Jane Doe <jane@example.com> Subject: Join Us".data,
   "Subject: Join Us".data,
   "Date: Mon, 1 Jan 2024 00:00:00".data,
   "To: signup@svc.com".data]

/-- Body with a continuation line directly after the marker, before any
header line has been matched. -/
def bodyC9 : Str :=
  ("---------- Forwarded message ----------\r\nhello world\r\n").data

/-- Body whose final line is the one matching the last remaining expected
header (`To`), with no line after it. -/
def bodyC10 : Str :=
  ("---------- Forwarded message ----------\r\n" ++
   "From: a@b.c\r\nDate: D\r\nSubject: s\r\nTo: x@y.com").data

/-- The lines following the marker in `bodyC10`. -/
def postC10 : List Str :=
  ["From: a@b.c".data, "Date: D".data, "Subject: s".data, "To: x@y.com".data]

/-! ## Side conditions for the round-trip claim -/

/-- A line (or value) that survives a CRLF join/split round trip. -/
def goodLine (l : Str) : Prop := '\r' ∉ l ∧ '\n' ∉ l

instance (l : Str) : Decidable (goodLine l) := by unfold goodLine; infer_instance

/-- A header value that is reconstructed verbatim: it survives the CRLF
round trip and is not eaten by the parser's left-strip of the value. -/
def goodVal (v : Str) : Prop :=
  goodLine v ∧ v.head? ≠ some ' ' ∧ v.head? ≠ some '\t'

instance (v : Str) : Decidable (goodVal v) := by unfold goodVal; infer_instance

/-- A noise line the extractor skips: blank, and CRLF-free so the body
splits back into the intended lines. -/
def blankLine (l : Str) : Prop := goodLine l ∧ pyIsBlank l = true

instance (l : Str) : Decidable (blankLine l) := by unfold blankLine; infer_instance

/-- Optionally apply the Gmail `"> "` quote to a line. -/
def quoteIf (b : Bool) (l : Str) : Str := if b then '>' :: ' ' :: l else l

/-- The lines the extractor collects from `bodyC3`. -/
def textC3 : List Str :=
  ["From: Jane Doe <jane@example.com>".data,
   "Date: Mon, 1 Jan 2024 00:00:00".data,
   "Subject: Join Us".data, "To: signup@svc.com".data]

/-- The lines the extractor collects from `bodyC1`. -/
def textC1 : List Str :=
  ["From:".data, "Date: D".data, "Subject: s".data, "tonight: x".data]

/-- The lines the extractor collects from `bodyC1w`. -/
def textC1w : List Str :=
  ["From:".data, "Date: D".data, "Subject: s".data, "To: x@y.com".data]

/-- The lines the extractor collects from `bodyC5`. -/
def textC5 : List Str :=
  ["From: Jane Doe <jane@example.com>".data, "Date: D".data,
   "Subject: s".data, "To:".data]

/-- The lines the extractor collects from `msgC5w`'s body. -/
def textC5w : List Str :=
  ["From: Jane Doe <jane@example.com>".data, "Date: D".data,
   "Subject: s".data, "To: other@nowhere.com".data]

/-- Outer message around `bodyC3` whose outer subject announces `Nope`
while the forwarded subject stays `Join Us`. -/
def msgC8 : PyMessage :=
  ⟨[("Delivered-To".data, "inbox@svc.com".data),
    ("Subject".data, "Fwd: Nope".data)], bodyC3⟩

/-- Outer message around `bodyC3` carrying no outer Subject header. -/
def msgC8n : PyMessage :=
  ⟨[("Delivered-To".data, "inbox@svc.com".data)], bodyC3⟩

/-- Concrete body exercising the amended round trip: header lines in the
source's expected order, some of them quoted, with blank-line noise. -/
def bodyC2w : Str :=
  joinCRLF (gmailMarker ::
    [([] : Str)] ++
      quoteIf false ("From: ".data ++ "Jane Doe <jane@example.com>".data) ::
    ([] ++ quoteIf true ("Date: ".data ++ "Mon, 1 Jan 2024".data) ::
     ([" ".data] ++ quoteIf false ("Subject: ".data ++ "Join Us".data) ::
      ([] ++ quoteIf true ("To: ".data ++ "signup@svc.com".data) ::
       ([] : Str) :: []))))

/-! ## CRLF split/join lemmas -/

/-- Splitting a string that starts with CRLF yields an empty first piece. -/
theorem splitCRLF_crlf (rest : Str) :
    splitCRLF ('\r' :: '\n' :: rest) = [] :: splitCRLF rest := by
  simp [splitCRLF]

/-- With a first character other than CR, splitting conses it onto the
head piece of the remainder's split. -/
theorem splitCRLF_cons_ne (c c2 : Char) (t : Str) (hc : c ≠ '\r') :
    splitCRLF (c :: c2 :: t) = consHead c (splitCRLF (c2 :: t)) := by
  simp only [splitCRLF]
  rw [if_neg (fun hand => hc hand.1)]

/-- Splitting `l ++ CRLF ++ rest` for a CR-free `l` yields `l` followed by
the split of `rest`. -/
theorem splitCRLF_append : ∀ (l rest : Str), '\r' ∉ l →
    splitCRLF (l ++ '\r' :: '\n' :: rest) = l :: splitCRLF rest
  | [], rest, _ => splitCRLF_crlf rest
  | c :: l, rest, h => by
    have hc : c ≠ '\r' := fun he => h (he ▸ List.mem_cons_self c l)
    have h2 : '\r' ∉ l := fun hm => h (List.mem_cons_of_mem c hm)
    have hrec := splitCRLF_append l rest h2
    cases hl : l ++ '\r' :: '\n' :: rest with
    | nil => exact absurd (List.append_eq_nil.mp hl).2 (by simp)
    | cons c2 t2 =>
      calc splitCRLF ((c :: l) ++ '\r' :: '\n' :: rest)
          = splitCRLF (c :: c2 :: t2) := by rw [List.cons_append, hl]
        _ = consHead c (splitCRLF (c2 :: t2)) := splitCRLF_cons_ne c c2 t2 hc
        _ = consHead c (splitCRLF (l ++ '\r' :: '\n' :: rest)) := by rw [hl]
        _ = consHead c (l :: splitCRLF rest) := by rw [hrec]
        _ = (c :: l) :: splitCRLF rest := rfl

/-- A CR-free string does not split. -/
theorem splitCRLF_single : ∀ (l : Str), '\r' ∉ l → splitCRLF l = [l]
  | [], _ => rfl
  | [_], _ => rfl
  | c :: c2 :: t, h => by
    have hc : c ≠ '\r' := fun he => h (he ▸ List.mem_cons_self _ _)
    have h2 : '\r' ∉ c2 :: t := fun hm => h (List.mem_cons_of_mem c hm)
    rw [splitCRLF_cons_ne c c2 t hc, splitCRLF_single (c2 :: t) h2]
    rfl

/-- The CRLF split of a CRLF join of CR-free lines recovers the lines. -/
theorem splitCRLF_joinCRLF : ∀ (ls : List Str), ls ≠ [] →
    (∀ l ∈ ls, '\r' ∉ l) → splitCRLF (joinCRLF ls) = ls
  | [], hne, _ => absurd rfl hne
  | [l], _, hg => by
    show splitCRLF l = [l]
    exact splitCRLF_single l (hg l (List.mem_singleton.mpr rfl))
  | l :: l2 :: ls, _, hg => by
    show splitCRLF (l ++ '\r' :: '\n' :: joinCRLF (l2 :: ls)) = l :: l2 :: ls
    rw [splitCRLF_append l _ (hg l (List.mem_cons_self _ _)),
      splitCRLF_joinCRLF (l2 :: ls) (List.cons_ne_nil _ _)
        (fun y hy => hg y (List.mem_cons_of_mem l hy))]

/-! ## Scan-stepping lemmas for the extractor -/

/-- Scanning a concatenation continues from the state in which the first
segment's scan ended, when it ended in a state (no early return). -/
theorem dataScan_append (l1 l2 : List Str) (st st2 : ScanState)
    (h : dataScan st l1 = .ok (.inr st2)) :
    dataScan st (l1 ++ l2) = dataScan st2 l2 := by
  induction l1 generalizing st with
  | nil =>
    have he : st = st2 := Sum.inr.inj (Except.ok.inj h)
    rw [List.nil_append, he]
  | cons a l1 ih =>
    rw [List.cons_append]
    simp only [dataScan] at h ⊢
    cases hp : processDatum st a with
    | error e => simp only [hp] at h; exact absurd h (by simp)
    | ok v =>
      cases v with
      | inl tx => simp only [hp] at h; exact absurd h (by simp)
      | inr st3 =>
        simp only [hp] at h ⊢
        exact ih st3 h

/-- Blank lines at the front of the scanned segment are skipped while
expected headers remain. -/
theorem dataScan_skip_blank : ∀ (noise : List Str) (st : ScanState)
    (rest : List Str), st.headers ≠ [] →
    (∀ l ∈ noise, pyIsBlank l = true) →
    dataScan st (noise ++ rest) = dataScan st rest
  | [], _, _, _, _ => rfl
  | n :: noise, st, rest, hh, hb => by
    have hpd : processDatum st n = .ok (.inr st) := by
      unfold processDatum
      rw [if_neg hh, if_pos (hb n (List.mem_cons_self _ _))]
    rw [List.cons_append]
    simp only [dataScan, hpd]
    exact dataScan_skip_blank noise st rest hh
      (fun l hl => hb l (List.mem_cons_of_mem n hl))

/-- A (possibly `"> "`-quoted) `From` line is collected first: it matches
the first remaining expected header, which is removed. -/
theorem processDatum_from (f : Str) (tx : List Str) (b : Bool) :
    processDatum ⟨initHeaders, tx⟩ (quoteIf b ("From: ".data ++ f))
    = .ok (.inr ⟨["date".data, "subject".data, "to".data],
                 tx ++ ["From: ".data ++ f]⟩) := by
  cases b <;> rfl

/-- A (possibly quoted) `Date` line is collected second. -/
theorem processDatum_date (d : Str) (tx : List Str) (b : Bool) :
    processDatum ⟨["date".data, "subject".data, "to".data], tx⟩
      (quoteIf b ("Date: ".data ++ d))
    = .ok (.inr ⟨["subject".data, "to".data], tx ++ ["Date: ".data ++ d]⟩) := by
  cases b <;> rfl

/-- A (possibly quoted) `Subject` line is collected third. -/
theorem processDatum_subject (s : Str) (tx : List Str) (b : Bool) :
    processDatum ⟨["subject".data, "to".data], tx⟩
      (quoteIf b ("Subject: ".data ++ s))
    = .ok (.inr ⟨["to".data], tx ++ ["Subject: ".data ++ s]⟩) := by
  cases b <;> rfl

/-- A (possibly quoted) `To` line is collected fourth, emptying the
remaining-headers set. -/
theorem processDatum_to (t : Str) (tx : List Str) (b : Bool) :
    processDatum ⟨["to".data], tx⟩ (quoteIf b ("To: ".data ++ t))
    = .ok (.inr ⟨[], tx ++ ["To: ".data ++ t]⟩) := by
  cases b <;> rfl

/-- Once no expected headers remain, the next examined line (whatever it
is) triggers the success exit with the collected text. -/
theorem processDatum_done (tx : List Str) (x : Str) :
    processDatum ⟨[], tx⟩ x = .ok (.inl tx) := rfl

/-- The full scan of the lines following the marker: blank noise is
skipped, the four (possibly quoted) header lines are collected in the
expected order, and the line after the `To` line triggers the success
exit. -/
theorem c2_scan_lemma (f d s t : Str) (b1 b2 b3 b4 : Bool)
    (n0 n1 n2 n3 : List Str) (x : Str) (rest : List Str)
    (hn0 : ∀ l ∈ n0, pyIsBlank l = true)
    (hn1 : ∀ l ∈ n1, pyIsBlank l = true)
    (hn2 : ∀ l ∈ n2, pyIsBlank l = true)
    (hn3 : ∀ l ∈ n3, pyIsBlank l = true) :
    dataScan ⟨initHeaders, []⟩
      (n0 ++ quoteIf b1 ("From: ".data ++ f) ::
       (n1 ++ quoteIf b2 ("Date: ".data ++ d) ::
        (n2 ++ quoteIf b3 ("Subject: ".data ++ s) ::
         (n3 ++ quoteIf b4 ("To: ".data ++ t) :: x :: rest))))
    = .ok (.inl ["From: ".data ++ f, "Date: ".data ++ d,
                 "Subject: ".data ++ s, "To: ".data ++ t]) := by
  rw [dataScan_skip_blank n0 _ _ (by simp [initHeaders]) hn0]
  simp only [dataScan, processDatum_from f [] b1]
  rw [dataScan_skip_blank n1 _ _ (by simp) hn1]
  simp only [dataScan, processDatum_date d _ b2]
  rw [dataScan_skip_blank n2 _ _ (by simp) hn2]
  simp only [dataScan, processDatum_subject s _ b3]
  rw [dataScan_skip_blank n3 _ _ (by simp) hn3]
  simp only [dataScan, processDatum_to t _ b4]
  simp only [dataScan, processDatum_done]
  simp

/-! ## Reconstruction lemmas -/

/-- Splitting a `From` line at its first colon. -/
theorem splitColon_from (f : Str) :
    splitColon ("From: ".data ++ f) = some ("From".data, ' ' :: f) := rfl

/-- Left-stripping the space after the colon recovers a value that does
not itself start with a space or tab. -/
theorem pyLstrip_space (v : Str) (h1 : v.head? ≠ some ' ')
    (h2 : v.head? ≠ some '\t') : pyLstrip (' ' :: v) = v := by
  cases v with
  | nil => rfl
  | cons c cs =>
    have hc1 : c ≠ ' ' := fun he => h1 (by rw [List.head?_cons, he])
    have hc2 : c ≠ '\t' := fun he => h2 (by rw [List.head?_cons, he])
    simp [pyLstrip, List.dropWhile_cons, hc1, hc2]

/-- Parsing step for the `From` line. -/
theorem parseStep_from (acc : List (Str × Str)) (f : Str) (rest : List Str) :
    parseHeadersAux acc (("From: ".data ++ f) :: rest)
    = parseHeadersAux (("From".data, pyLstrip (' ' :: f)) :: acc) rest := rfl

/-- Parsing step for the `Date` line. -/
theorem parseStep_date (acc : List (Str × Str)) (d : Str) (rest : List Str) :
    parseHeadersAux acc (("Date: ".data ++ d) :: rest)
    = parseHeadersAux (("Date".data, pyLstrip (' ' :: d)) :: acc) rest := rfl

/-- Parsing step for the `Subject` line. -/
theorem parseStep_subject (acc : List (Str × Str)) (s : Str) (rest : List Str) :
    parseHeadersAux acc (("Subject: ".data ++ s) :: rest)
    = parseHeadersAux (("Subject".data, pyLstrip (' ' :: s)) :: acc) rest := rfl

/-- Parsing step for the `To` line. -/
theorem parseStep_to (acc : List (Str × Str)) (t : Str) (rest : List Str) :
    parseHeadersAux acc (("To: ".data ++ t) :: rest)
    = parseHeadersAux (("To".data, pyLstrip (' ' :: t)) :: acc) rest := rfl

/-- Reconstructing headers from the four collected lines yields exactly
the four name/value pairs, for values that survive the round trip. -/
theorem parse_four (f d s t : Str)
    (hf : goodVal f) (hd : goodVal d) (hs : goodVal s) (ht : goodVal t) :
    forwarded_headers ["From: ".data ++ f, "Date: ".data ++ d,
      "Subject: ".data ++ s, "To: ".data ++ t]
    = [("From".data, f), ("Date".data, d),
       ("Subject".data, s), ("To".data, t)] := by
  have hsplit : splitCRLF (joinCRLF ["From: ".data ++ f, "Date: ".data ++ d,
      "Subject: ".data ++ s, "To: ".data ++ t])
      = ["From: ".data ++ f, "Date: ".data ++ d,
         "Subject: ".data ++ s, "To: ".data ++ t] := by
    apply splitCRLF_joinCRLF _ (by simp)
    intro l hl
    rcases List.mem_cons.mp hl with rfl | hl
    · intro hm
      rcases List.mem_append.mp hm with hm | hm
      · exact absurd hm (by decide)
      · exact hf.1.1 hm
    rcases List.mem_cons.mp hl with rfl | hl
    · intro hm
      rcases List.mem_append.mp hm with hm | hm
      · exact absurd hm (by decide)
      · exact hd.1.1 hm
    rcases List.mem_cons.mp hl with rfl | hl
    · intro hm
      rcases List.mem_append.mp hm with hm | hm
      · exact absurd hm (by decide)
      · exact hs.1.1 hm
    rcases List.mem_cons.mp hl with rfl | hl
    · intro hm
      rcases List.mem_append.mp hm with hm | hm
      · exact absurd hm (by decide)
      · exact ht.1.1 hm
    · exact absurd hl (by simp)
  unfold forwarded_headers parse_headers
  rw [hsplit, parseStep_from, parseStep_date, parseStep_subject, parseStep_to,
    pyLstrip_space f hf.2.1 hf.2.2, pyLstrip_space d hd.2.1 hd.2.2,
    pyLstrip_space s hs.2.1 hs.2.2, pyLstrip_space t ht.2.1 ht.2.2]
  rfl

/-! ## Claim C3: the end-to-end scenario -/

/-- C3: for an outer message with `Delivered-To` equal to the configured
forwarding address, `Subject` equal to `Fwd: ` plus the configured
subject, and a body containing the Gmail marker followed by
`From: Jane Doe <jane@example.com>`, a `Date` line, the inner `Subject`
equal to the configured subject, and a `To` address in the configured
`to_addrs` set, the Validator returns the record with email
`jane@example.com` and the fixed placeholder names `Friendly` / `Human`. -/
theorem c3_end_to_end :
    forwarding_user msgC3 ["signup@svc.com".data] fwdAddr (some "Join Us".data)
    = .ok (some ⟨"jane@example.com".data, "Friendly".data, "Human".data⟩) := by
  rfl

/-! ## Claim C4: the unprocessed-message iterator -/

/-- C4 (code bug): on the claimed scenario of successive unseen-search
results `["1","2"]`, `["3"]`, `[]`, the iterator yields only TWO messages
(for ids `1` and `3`), not three: the `IMAP4_SSL.search` wrapper already
splits the raw result into an id list, and the local `_unseen` helper
then takes element `[0]` of that list — the first id — and splits it
again, so every id of a batch other than the first is dropped. -/
theorem c4_iterator_yields_first_id_of_each_batch :
    unprocessed_emails (fun s => ⟨[("Message-ID".data, s)], []⟩)
      [["1".data, "2".data], ["3".data], []]
    = [⟨[("Message-ID".data, "1".data)], []⟩,
       ⟨[("Message-ID".data, "3".data)], []⟩] := by
  rfl

/-! ## Claim C6: missing Delivered-To -/

/-- C6: for every message that lacks a `Delivered-To` header, the
Validator yields no record. -/
theorem c6_missing_delivered_to (msg : PyMessage) (to_addrs : List Str)
    (fwd_addr : Str) (subject : Option Str)
    (h : msg.get "Delivered-To".data = none) :
    forwarding_user msg to_addrs fwd_addr subject = .ok none := by
  unfold forwarding_user
  rw [h]

/-- Witness for C6 at a concrete message with no headers at all. -/
theorem c6_witness :
    PyMessage.get ⟨[], []⟩ "Delivered-To".data = none ∧
    forwarding_user ⟨[], []⟩ [] fwdAddr none = .ok none :=
  ⟨rfl, c6_missing_delivered_to ⟨[], []⟩ [] fwdAddr none rfl⟩

/-! ## Claim C7: Delivered-To must match fwd_addr case-insensitively -/

/-- C7: for every message whose `Delivered-To` header differs
case-insensitively (i.e. after lowering) from the configured `fwd_addr`,
the Validator yields no record. -/
theorem c7_delivered_to_mismatch (msg : PyMessage) (to_addrs : List Str)
    (fwd_addr : Str) (subject : Option Str) (dt : Str)
    (h1 : msg.get "Delivered-To".data = some dt)
    (h2 : pyLower dt ≠ pyLower fwd_addr) :
    forwarding_user msg to_addrs fwd_addr subject = .ok none := by
  unfold forwarding_user
  rw [h1]
  simp [h2]

/-- Witness for C7 at a concrete message delivered to another address. -/
theorem c7_witness :
    PyMessage.get ⟨[("Delivered-To".data, "other@elsewhere.org".data)], []⟩
      "Delivered-To".data = some "other@elsewhere.org".data ∧
    pyLower "other@elsewhere.org".data ≠ pyLower fwdAddr ∧
    forwarding_user ⟨[("Delivered-To".data, "other@elsewhere.org".data)], []⟩
      [] fwdAddr none = .ok none :=
  ⟨rfl, by decide,
   c7_delivered_to_mismatch _ [] fwdAddr none _ rfl (by decide)⟩

/-! ## Claim C9: continuation line before the first header -/

/-- C9: on a body whose forwarded block starts with a line that matches
none of the remaining recognized header prefixes (a continuation line)
before any header line has been matched, the extractor evaluates
`text[-1]` on the still-empty collected-lines list — an out-of-range
access (IndexError) — instead of returning a result. -/
theorem c9_continuation_before_first_header :
    forwarded_text bodyC9 = .error .indexError := by
  rfl

/-! ## Claim C10: the success exit needs a line after the last header -/

/-- When the marker occurs nowhere in the lines, the outer loop of the
extractor falls off the end and the function returns `None`, whatever
state it carries. -/
theorem forwardedDataAux_of_not_mem (marker : Str) (st : ScanState)
    (l : List Str) (h : marker ∉ l) :
    forwardedDataAux marker st l = .ok none := by
  induction l with
  | nil => rfl
  | cons a l ih =>
    rw [forwardedDataAux, if_neg]
    · exact ih (fun hm => h (List.mem_cons_of_mem a hm))
    · intro he
      exact h (he ▸ List.mem_cons_self a l)

/-- C10: when the inner scan of the lines after the (unique) marker runs
off the end of the body just as the remaining-headers set becomes empty —
that is, the line matching the last remaining expected header is the
final line — the extractor returns `None` instead of the accumulated
header-line list: the success exit is only taken when a subsequent line
is examined after the set empties. -/
theorem c10_no_line_after_last_header (marker : Str)
    (pre post text : List Str)
    (hpre : marker ∉ pre) (hpost : marker ∉ post)
    (hscan : dataScan ⟨initHeaders, []⟩ post
      = .ok (.inr (⟨[], text⟩ : ScanState))) :
    forwarded_data (pre ++ marker :: post) marker = .ok none := by
  unfold forwarded_data
  induction pre with
  | nil =>
    rw [List.nil_append, forwardedDataAux, if_pos rfl, hscan]
    exact forwardedDataAux_of_not_mem marker ⟨[], text⟩ post hpost
  | cons a pre ih =>
    rw [List.cons_append, forwardedDataAux, if_neg]
    · exact ih (fun hm => hpre (List.mem_cons_of_mem a hm))
    · intro he
      exact hpre (he ▸ List.mem_cons_self a pre)

/-- Witness for C10: the `To` line of `postC10` is the final line; the
scan ends with no remaining headers and the extractor returns `None`. -/
theorem c10_witness :
    gmailMarker ∉ ([] : List Str) ∧ gmailMarker ∉ postC10 ∧
    dataScan ⟨initHeaders, []⟩ postC10
      = .ok (.inr (⟨[], postC10⟩ : ScanState)) ∧
    forwarded_data ([] ++ gmailMarker :: postC10) gmailMarker = .ok none :=
  ⟨by decide, by decide, by rfl,
   c10_no_line_after_last_header gmailMarker [] postC10 postC10
     (by decide) (by decide) (by rfl)⟩

/-! ## Claim C1: unresolvable forwarded From address -/

/-- C1 (counterexample to the claim as stated): a message whose
reconstructed forwarded `From` header has no resolvable address part, yet
whose processing raises (an AttributeError escapes to the caller) instead
of returning "no record": the reconstructed headers lack a `To` header
(the to-prefixed line is `tonight:`), so `_headers_to` returns `None` and
`headers_to.lower()` raises before the From step is reached. -/
theorem c1_counterexample :
    forwarded_text bodyC1 = .ok (some textC1) ∧
    (parseaddr (hget (forwarded_headers textC1) "From".data)).2 = [] ∧
    forwarding_user msgC1 ["x@y.com".data] fwdAddr none
      = .error .attributeError :=
  ⟨rfl, rfl, rfl⟩

/-- C1 (amended): for every message whose forwarded block is extracted
successfully, whose reconstructed headers do contain a `To` header, and
whose reconstructed `From` header has no resolvable address part, the
Validator returns no record and no exception crosses into the caller. -/
theorem c1_unresolvable_from_yields_no_record (msg : PyMessage)
    (to_addrs : List Str) (fwd_addr : Str) (subject : Option Str)
    (text : List Str)
    (htext : forwarded_text msg.body = .ok (some text))
    (hto : hget (forwarded_headers text) "To".data ≠ none)
    (hfrom : (parseaddr (hget (forwarded_headers text) "From".data)).2 = []) :
    forwarding_user msg to_addrs fwd_addr subject = .ok none := by
  have hfrom2 : forwarded_from (forwarded_headers text) = none := by
    unfold forwarded_from email_address
    simp [hfrom]
  have hto2 : ∃ v, headers_to (forwarded_headers text) = some v := by
    cases hg : hget (forwarded_headers text) "To".data with
    | none => exact absurd hg hto
    | some tv =>
      cases he : email_address (some tv) with
      | none => exact ⟨tv, by simp [headers_to, hg, he]⟩
      | some p => exact ⟨p.2, by simp [headers_to, hg, he]⟩
  obtain ⟨v, hv⟩ := hto2
  unfold forwarding_user
  simp only [htext, hv, hfrom2]
  split
  · rfl
  · split_ifs <;> rfl

/-- Witness for C1: a concrete message with an empty forwarded `From`
value and a well-formed `To` header; the Validator returns no record. -/
theorem c1_witness :
    forwarded_text msgC1w.body = .ok (some textC1w) ∧
    hget (forwarded_headers textC1w) "To".data ≠ none ∧
    (parseaddr (hget (forwarded_headers textC1w) "From".data)).2 = [] ∧
    forwarding_user msgC1w ["x@y.com".data] fwdAddr none = .ok none :=
  ⟨rfl, by decide, rfl,
   c1_unresolvable_from_yields_no_record msgC1w ["x@y.com".data] fwdAddr none
     textC1w rfl (by decide) rfl⟩

/-! ## Claim C5: the forwarded-To membership check -/

/-- C5 (counterexample to the claim as stated): the Validator does not
require the forwarded `To` value to be a parseable address: here no
address part is resolvable from the reconstructed `To` header (its value
is empty), `_headers_to` falls back to that raw value, the raw value is a
member of the configured `to_addrs`, and a record is returned. -/
theorem c5_counterexample :
    email_address (hget (forwarded_headers textC5) "To".data) = none ∧
    hget (forwarded_headers textC5) "To".data = some [] ∧
    forwarding_user msgC5 [[]] fwdAddr none
      = .ok (some ⟨"jane@example.com".data, "Friendly".data, "Human".data⟩) :=
  ⟨rfl, rfl, rfl⟩

/-- C5 (amended): the Validator requires that the extracted To value —
the parsed address part when one is resolvable, otherwise the raw
reconstructed `To` value — lowercased, is a member of the lowercased
`to_addrs`, and returns no record otherwise; in particular a forwarded
`To` address not present case-insensitively in `to_addrs` yields no
record. -/
theorem c5_forwarded_to_not_allowed (msg : PyMessage) (to_addrs : List Str)
    (fwd_addr : Str) (subject : Option Str) (text : List Str) (hto : Str)
    (htext : forwarded_text msg.body = .ok (some text))
    (hv : headers_to (forwarded_headers text) = some hto)
    (hmem : (to_addrs.map pyLower).contains (pyLower hto) = false) :
    forwarding_user msg to_addrs fwd_addr subject = .ok none := by
  unfold forwarding_user
  simp only [htext, hv, hmem]
  split
  · rfl
  · split_ifs <;> simp_all

/-- Witness for C5: a parseable forwarded `To` address that is not among
the configured destinations; the Validator returns no record. -/
theorem c5_witness :
    forwarded_text msgC5w.body = .ok (some textC5w) ∧
    headers_to (forwarded_headers textC5w) = some "other@nowhere.com".data ∧
    (["signup@svc.com".data].map pyLower).contains
      (pyLower "other@nowhere.com".data) = false ∧
    forwarding_user msgC5w ["signup@svc.com".data] fwdAddr none = .ok none :=
  ⟨rfl, rfl, rfl,
   c5_forwarded_to_not_allowed msgC5w ["signup@svc.com".data] fwdAddr none
     textC5w "other@nowhere.com".data rfl rfl rfl⟩

/-! ## Claim C8: the two subject checks -/

/-- C8: with a configured subject, (i) an outer `Subject` differing from
`Fwd: ` plus that subject yields no record, and (ii) a reconstructed
forwarded `Subject` differing from it yields no record; (iii) with no
subject configured, neither check applies: on a message passing all other
checks the outcome is determined by address extraction alone, with no
condition on either subject value. -/
theorem c8_subject_checks :
    (∀ (msg : PyMessage) (to_addrs : List Str) (fwd_addr : Str) (subj : Str),
      msg.get "Subject".data ≠ some ("Fwd: ".data ++ subj) →
      forwarding_user msg to_addrs fwd_addr (some subj) = .ok none)
    ∧ (∀ (msg : PyMessage) (to_addrs : List Str) (fwd_addr : Str)
        (subj : Str) (text : List Str) (hto : Str),
      forwarded_text msg.body = .ok (some text) →
      headers_to (forwarded_headers text) = some hto →
      hget (forwarded_headers text) "Subject".data ≠ some subj →
      forwarding_user msg to_addrs fwd_addr (some subj) = .ok none)
    ∧ (∀ (msg : PyMessage) (to_addrs : List Str) (fwd_addr : Str)
        (dt : Str) (text : List Str) (hto : Str),
      msg.get "Delivered-To".data = some dt →
      pyLower dt = pyLower fwd_addr →
      forwarded_text msg.body = .ok (some text) →
      headers_to (forwarded_headers text) = some hto →
      (to_addrs.map pyLower).contains (pyLower hto) = true →
      forwarding_user msg to_addrs fwd_addr none
        = .ok (forwarded_from (forwarded_headers text))) := by
  refine ⟨?_, ?_, ?_⟩
  · intro msg to_addrs fwd_addr subj h
    have houter : outerSubjectBad msg (some subj) = true := by
      show (msg.get "Subject".data != some ("Fwd: ".data ++ subj)) = true
      exact bne_iff_ne.mpr h
    unfold forwarding_user
    simp only [houter]
    split
    · rfl
    · split_ifs <;> simp_all
  · intro msg to_addrs fwd_addr subj text hto htext hv h
    have hinner : innerSubjectBad (forwarded_headers text) (some subj) = true := by
      simp [innerSubjectBad, h]
    unfold forwarding_user
    simp only [htext, hv, hinner]
    split
    · rfl
    · split_ifs <;> simp_all
  · intro msg to_addrs fwd_addr dt text hto hdt hlow htext hv hmem
    unfold forwarding_user
    simp only [hdt, htext, hv, hmem]
    rw [if_neg (not_not_intro hlow)]
    simp [outerSubjectBad, innerSubjectBad]

/-! ## Claim C2: the forwarded-block round trip -/

/-- C2 (counterexample to the claim as stated): a synthetic Gmail-style
forwarded body with valid From/Date/Subject/To lines in the order
From, Subject, Date, To. Extraction succeeds, but the `Subject` line is
first glued onto the previously collected `From` line (each remaining
header name that fails to prefix-match appends the line to the last
collected one before the matching name is reached), so the reconstructed
`From` value is not the body's `From` value: the round trip fails for
this order. -/
theorem c2_counterexample :
    forwarded_text bodyC2 = .ok (some textC2) ∧
    hget (forwarded_headers textC2) "From".data
      = some "Jane Doe <jane@example.com> Subject: Join Us".data ∧
    hget (forwarded_headers textC2) "From".data
      ≠ some "Jane Doe <jane@example.com>".data :=
  ⟨rfl, rfl, by decide⟩

/-- C2 (amended): for a synthetic Gmail-style forwarded body whose valid
From, Date, Subject and To lines appear in the source's expected order
(From, Date, Subject, To), each optionally `"> "`-quoted, with blank
lines interspersed and at least one further line after the To line,
extracting the forwarded block and reconstructing headers yields exactly
those four header values. -/
theorem c2_round_trip (f d s t : Str) (b1 b2 b3 b4 : Bool)
    (n0 n1 n2 n3 : List Str) (x : Str) (rest : List Str)
    (hf : goodVal f) (hd : goodVal d) (hsv : goodVal s) (htv : goodVal t)
    (hn0 : ∀ l ∈ n0, blankLine l) (hn1 : ∀ l ∈ n1, blankLine l)
    (hn2 : ∀ l ∈ n2, blankLine l) (hn3 : ∀ l ∈ n3, blankLine l)
    (hx : goodLine x) (hrest : ∀ l ∈ rest, goodLine l) :
    forwarded_text (joinCRLF (gmailMarker ::
        n0 ++ quoteIf b1 ("From: ".data ++ f) ::
        (n1 ++ quoteIf b2 ("Date: ".data ++ d) ::
         (n2 ++ quoteIf b3 ("Subject: ".data ++ s) ::
          (n3 ++ quoteIf b4 ("To: ".data ++ t) :: x :: rest)))))
      = .ok (some ["From: ".data ++ f, "Date: ".data ++ d,
                   "Subject: ".data ++ s, "To: ".data ++ t]) ∧
    hget (forwarded_headers ["From: ".data ++ f, "Date: ".data ++ d,
        "Subject: ".data ++ s, "To: ".data ++ t]) "From".data = some f ∧
    hget (forwarded_headers ["From: ".data ++ f, "Date: ".data ++ d,
        "Subject: ".data ++ s, "To: ".data ++ t]) "Date".data = some d ∧
    hget (forwarded_headers ["From: ".data ++ f, "Date: ".data ++ d,
        "Subject: ".data ++ s, "To: ".data ++ t]) "Subject".data = some s ∧
    hget (forwarded_headers ["From: ".data ++ f, "Date: ".data ++ d,
        "Subject: ".data ++ s, "To: ".data ++ t]) "To".data = some t := by
  have hq : ∀ (b : Bool) (l : Str), '\r' ∉ l → '\r' ∉ quoteIf b l := by
    intro b l hl
    cases b with
    | false => exact hl
    | true =>
      intro hm
      rcases List.mem_cons.mp hm with h1 | hm2
      · exact absurd h1 (by decide)
      rcases List.mem_cons.mp hm2 with h1 | hm3
      · exact absurd h1 (by decide)
      · exact hl hm3
  have hcat : ∀ (p v : Str), '\r' ∉ p → '\r' ∉ v → '\r' ∉ p ++ v := by
    intro p v hp hv hm
    rcases List.mem_append.mp hm with h1 | h1
    · exact hp h1
    · exact hv h1
  have hnoCR : ∀ l ∈ (gmailMarker ::
      n0 ++ quoteIf b1 ("From: ".data ++ f) ::
      (n1 ++ quoteIf b2 ("Date: ".data ++ d) ::
       (n2 ++ quoteIf b3 ("Subject: ".data ++ s) ::
        (n3 ++ quoteIf b4 ("To: ".data ++ t) :: x :: rest)))), '\r' ∉ l := by
    intro l hl
    rcases List.mem_cons.mp hl with rfl | hl
    · decide
    rcases List.mem_append.mp hl with hl | hl
    · exact (hn0 l hl).1.1
    rcases List.mem_cons.mp hl with rfl | hl
    · exact hq b1 _ (hcat _ _ (by decide) hf.1.1)
    rcases List.mem_append.mp hl with hl | hl
    · exact (hn1 l hl).1.1
    rcases List.mem_cons.mp hl with rfl | hl
    · exact hq b2 _ (hcat _ _ (by decide) hd.1.1)
    rcases List.mem_append.mp hl with hl | hl
    · exact (hn2 l hl).1.1
    rcases List.mem_cons.mp hl with rfl | hl
    · exact hq b3 _ (hcat _ _ (by decide) hsv.1.1)
    rcases List.mem_append.mp hl with hl | hl
    · exact (hn3 l hl).1.1
    rcases List.mem_cons.mp hl with rfl | hl
    · exact hq b4 _ (hcat _ _ (by decide) htv.1.1)
    rcases List.mem_cons.mp hl with rfl | hl
    · exact hx.1
    · exact (hrest l hl).1
  have hsplit := splitCRLF_joinCRLF (gmailMarker ::
      n0 ++ quoteIf b1 ("From: ".data ++ f) ::
      (n1 ++ quoteIf b2 ("Date: ".data ++ d) ::
       (n2 ++ quoteIf b3 ("Subject: ".data ++ s) ::
        (n3 ++ quoteIf b4 ("To: ".data ++ t) :: x :: rest))))
    (List.cons_ne_nil _ _) hnoCR
  have hscan := c2_scan_lemma f d s t b1 b2 b3 b4 n0 n1 n2 n3 x rest
    (fun l hl => (hn0 l hl).2) (fun l hl => (hn1 l hl).2)
    (fun l hl => (hn2 l hl).2) (fun l hl => (hn3 l hl).2)
  refine ⟨?_, ?_, ?_, ?_, ?_⟩
  · unfold forwarded_text forwarded_data
    rw [hsplit]
    simp only [forwardedDataAux]
    simp only [List.append_eq, List.cons_append, List.nil_append, if_true]
      at hscan ⊢
    rw [hscan]
  · rw [parse_four f d s t hf hd hsv htv]; rfl
  · rw [parse_four f d s t hf hd hsv htv]; rfl
  · rw [parse_four f d s t hf hd hsv htv]; rfl
  · rw [parse_four f d s t hf hd hsv htv]; rfl

/-- Witness for C2 at concrete values: two of the four header lines
quoted, blank-line noise before the From line and before the Subject
line, and an empty line after the To line. -/
theorem c2_witness :
    forwarded_text bodyC2w
      = .ok (some ["From: Jane Doe <jane@example.com>".data,
                   "Date: Mon, 1 Jan 2024".data,
                   "Subject: Join Us".data,
                   "To: signup@svc.com".data]) ∧
    hget (forwarded_headers ["From: Jane Doe <jane@example.com>".data,
        "Date: Mon, 1 Jan 2024".data, "Subject: Join Us".data,
        "To: signup@svc.com".data]) "From".data
      = some "Jane Doe <jane@example.com>".data ∧
    hget (forwarded_headers ["From: Jane Doe <jane@example.com>".data,
        "Date: Mon, 1 Jan 2024".data, "Subject: Join Us".data,
        "To: signup@svc.com".data]) "Date".data
      = some "Mon, 1 Jan 2024".data ∧
    hget (forwarded_headers ["From: Jane Doe <jane@example.com>".data,
        "Date: Mon, 1 Jan 2024".data, "Subject: Join Us".data,
        "To: signup@svc.com".data]) "Subject".data
      = some "Join Us".data ∧
    hget (forwarded_headers ["From: Jane Doe <jane@example.com>".data,
        "Date: Mon, 1 Jan 2024".data, "Subject: Join Us".data,
        "To: signup@svc.com".data]) "To".data
      = some "signup@svc.com".data :=
  c2_round_trip "Jane Doe <jane@example.com>".data "Mon, 1 Jan 2024".data
    "Join Us".data "signup@svc.com".data false true false true
    [([] : Str)] [] [" ".data] [] [] []
    (by decide) (by decide) (by decide) (by decide)
    (by decide) (by decide) (by decide) (by decide)
    (by decide) (by decide)

/-- Witness for C8, exercising all three parts on concrete messages:
an outer-subject mismatch, a forwarded-subject mismatch, and a
subjectless configuration where the record is produced with no subject
constraint. -/
theorem c8_witness :
    (PyMessage.get msgC3 "Subject".data ≠ some ("Fwd: ".data ++ "Other".data) ∧
      forwarding_user msgC3 ["signup@svc.com".data] fwdAddr
        (some "Other".data) = .ok none)
    ∧ (forwarded_text msgC8.body = .ok (some textC3) ∧
      headers_to (forwarded_headers textC3) = some "signup@svc.com".data ∧
      hget (forwarded_headers textC3) "Subject".data ≠ some "Nope".data ∧
      forwarding_user msgC8 ["signup@svc.com".data] fwdAddr
        (some "Nope".data) = .ok none)
    ∧ (PyMessage.get msgC8n "Delivered-To".data = some "inbox@svc.com".data ∧
      pyLower "inbox@svc.com".data = pyLower fwdAddr ∧
      forwarding_user msgC8n ["signup@svc.com".data] fwdAddr none
        = .ok (forwarded_from (forwarded_headers textC3))) :=
  ⟨⟨by decide,
    c8_subject_checks.1 msgC3 ["signup@svc.com".data] fwdAddr "Other".data
      (by decide)⟩,
   ⟨rfl, rfl, by decide,
    c8_subject_checks.2.1 msgC8 ["signup@svc.com".data] fwdAddr "Nope".data
      textC3 "signup@svc.com".data rfl rfl (by decide)⟩,
   ⟨rfl, by decide,
    c8_subject_checks.2.2 msgC8n ["signup@svc.com".data] fwdAddr
      "inbox@svc.com".data textC3 "signup@svc.com".data rfl (by decide)
      rfl rfl rfl⟩⟩

end EmailForward
